import Mathlib

/-
Verification of the discrete-GPU power-switch kernel module
(bbswitch, Zephyrus G14 variant, src/bbswitch.c).

The C source is shallowly embedded as pure Lean functions.  Kernel and
firmware facts that the module merely observes (the SGST status value, bus
enumeration, the driver bound to the PCI device, the parent bridge) are
modelled as an explicit `World`/`Env`; every module-side state change and
every externally visible action (ACPI object evaluations, sleeps, PCI
rescans, runtime-PM gets/puts) is recorded in an event trace.  A `none`
result of an operation models a NULL-pointer dereference in the C code.
-/

namespace BBSwitch

/-- Externally visible actions performed by the module. -/
inductive Event
  /-- evaluation of an ACPI object, given by namespace path and method name -/
  | evalObj (path : String) (method : String)
  /-- a `_DSM` invocation, given by muid tag, revision and function index -/
  | dsmCall (muid : String) (revid : Nat) (func : Nat)
  /-- an `msleep` of the given number of milliseconds -/
  | sleep (ms : Nat)
  /-- a `pci_get_device` rescan of the bus (the body of `get_dis_dev`) -/
  | getDev
  /-- `pm_runtime_get_sync` on the parent bridge -/
  | pmGet
  /-- `pm_runtime_put_sync` on the parent bridge -/
  | pmPut
deriving DecidableEq, Repr

/-- Result shapes an ACPI evaluation can hand back (`union acpi_object`):
an integer, a byte buffer, or anything else. -/
inductive AcpiObj
  | intVal (v : Nat)
  | buf (bytes : List Nat)
  | other (t : Nat)
deriving DecidableEq, Repr

/-- Little-endian decoding of a 4-byte buffer, as done by the
`obj->type == ACPI_TYPE_BUFFER` branch of `acpi_call_dsm`
(`*result |= p[0]; *result |= p[1] << 8; ...`; the bytes are `u8`). -/
def decodeLE4 (b0 b1 b2 b3 : Nat) : Nat :=
  b0 ||| (b1 <<< 8) ||| (b2 <<< 16) ||| (b3 <<< 24)

/-- Embedding of `acpi_call_dsm` (src/bbswitch.c:117).  The outcome of the
underlying `acpi_evaluate_object` call is a parameter: `err` is its returned
status (non-zero = failure) and `obj` the object produced on success.
`result` models the caller-supplied `uint32_t *result` slot (`none` = NULL
pointer).  Returns the C function's return value together with the slot's
content afterwards.  On failure the function returns `err` and does not touch
the slot; on success it returns 0, storing the integer value (truncated to
`u32`) or the little-endian decoding of a 4-byte buffer, and leaving the slot
alone for any other result shape. -/
def acpi_call_dsm (err : Nat) (obj : AcpiObj) (result : Option Nat) :
    Nat × Option Nat :=
  if err ≠ 0 then
    (err, result)
  else
    match obj, result with
    | AcpiObj.intVal v, some _ => (0, some (v % 2 ^ 32))
    | AcpiObj.buf [b0, b1, b2, b3], some _ => (0, some (decodeLE4 b0 b1 b2 b3))
    | _, _ => (0, result)

/-- Embedding of `has_dsm_func` (src/bbswitch.c:184): call `acpi_call_dsm`
with function index 0 on a local `u32 result = 0`; fail (false) if the call
failed, otherwise `result & 1 && result & (1 << sfnc)`.  The firmware
outcome of the `_DSM` evaluation on the global `dis_handle` is the
`(err, obj)` parameter pair. -/
def has_dsm_func (err : Nat) (obj : AcpiObj) (sfnc : Nat) : Bool :=
  let r := acpi_call_dsm err obj (some 0)
  if r.1 ≠ 0 then
    false
  else
    let result := r.2.getD 0
    decide (result &&& 1 ≠ 0) && decide (result &&& (1 <<< sfnc) ≠ 0)

/-- Embedding of `handle_has_dsm_func` (src/bbswitch.c:196).  In C it differs
from `has_dsm_func` only in consulting an explicitly passed handle instead of
the global `dis_handle`; in the embedding the handle's firmware response is
the `(err, obj)` pair, so the algorithm is textually the same. -/
def handle_has_dsm_func (err : Nat) (obj : AcpiObj) (sfnc : Nat) : Bool :=
  let r := acpi_call_dsm err obj (some 0)
  if r.1 ≠ 0 then
    false
  else
    let result := r.2.getD 0
    decide (result &&& 1 ≠ 0) && decide (result &&& (1 <<< sfnc) ≠ 0)

/-- The 32-bit mask value that a successful capability-probe call leaves in
its `result` slot (0 when the firmware hands back an unusable shape). -/
def dsm_mask (obj : AcpiObj) : Nat :=
  (acpi_call_dsm 0 obj (some 0)).2.getD 0

/-- `#define DSM_TYPE_UNSUPPORTED 0` (src/bbswitch.c:89). -/
def DSM_TYPE_UNSUPPORTED : Nat := 0

/-- `#define DSM_TYPE_OPTIMUS 1` (src/bbswitch.c:90). -/
def DSM_TYPE_OPTIMUS : Nat := 1

/-- `#define DSM_TYPE_NVIDIA 2` (src/bbswitch.c:91). -/
def DSM_TYPE_NVIDIA : Nat := 2

/-- Embedding of `bbswitch_optimus_dsm` (src/bbswitch.c:208): when the
resolved interface is Optimus-style, invoke the Optimus `_DSM` (revision
0x100, function 0x1A) and return 1 on failure; otherwise do nothing and
return 0.  `err` parameterizes the firmware outcome of that `_DSM` call. -/
def bbswitch_optimus_dsm (dsm_type : Nat) (err : Nat) : Nat × List Event :=
  if dsm_type = DSM_TYPE_OPTIMUS then
    if err ≠ 0 then
      (1, [Event.dsmCall "optimus" 256 26])
    else
      (0, [Event.dsmCall "optimus" 256 26])
  else
    (0, [])

/-- Facts of the machine outside the module that the code observes:
the value the `SGST` status method evaluates to, whether
`pci_get_device(vendor, device, ...)` currently finds the adapter on the
bus, and the `driver` field of the adapter's (unique) `struct pci_dev`. -/
structure World where
  sgst : Int
  busVisible : Bool
  driver : Option String
deriving DecidableEq, Repr

/-- Dynamics of the machine: how the world reacts to the `_OFF` and `_ON`
evaluations on `\_SB.PCI0.GPP0.PG00`, how it evolves while the module sleeps
500 ms (`tick`), and whether the adapter has a parent bridge
(`dis_dev->bus && dis_dev->bus->self`, fixed hardware topology). -/
structure Env where
  offSem : World → World
  onSem : World → World
  tick : World → World
  hasBridge : Bool

/-- Module-side mutable state: the live device pointer `dis_dev`
(`true` = non-NULL; a non-NULL value always refers to the adapter's unique
`struct pci_dev`), the suspend memory `dis_before_suspend_disabled`, and the
start-up configuration `dsm_type` / `skip_optimus_dsm`. -/
structure S where
  w : World
  dis_dev : Bool
  dis_before_suspend_disabled : Int
  dsm_type : Nat
  skip_optimus_dsm : Bool
deriving DecidableEq, Repr

/-- Embedding of `get_dis_dev` (src/bbswitch.c:223): re-scan the bus for
(vendor, device); only overwrite `dis_dev` when the scan finds the device. -/
def get_dis_dev (s : S) : S :=
  if s.w.busVisible then { s with dis_dev := true } else s

/-- Embedding of `is_card_disabled` (src/bbswitch.c:259): evaluate `SGST` on
`\_SB.PCI0.GPP0.PEGP`; a positive value maps to 0 (enabled), otherwise 1
(disabled); when enabled, re-scan the bus and downgrade to -1 if `dis_dev`
is still NULL (card still powering on).  Returns the status value, the state
after the embedded `get_dis_dev`, and the emitted events. -/
def is_card_disabled (s : S) : Int × S × List Event :=
  let gpustatus : Int := if 0 < s.w.sgst then 0 else 1
  if gpustatus = 0 then
    let s1 := get_dis_dev s
    if s1.dis_dev = false then
      (-1, s1, [Event.evalObj "\\_SB.PCI0.GPP0.PEGP" "SGST", Event.getDev])
    else
      (0, s1, [Event.evalObj "\\_SB.PCI0.GPP0.PEGP" "SGST", Event.getDev])
  else
    (gpustatus, s, [Event.evalObj "\\_SB.PCI0.GPP0.PEGP" "SGST"])

/-- The observable status of a state: the value `is_card_disabled` reports
(0 = on, 1 = off, -1 = indeterminate). -/
def statusOf (s : S) : Int :=
  (is_card_disabled s).1

/-- Embedding of `bbswitch_acpi_off` (src/bbswitch.c:231): evaluate `_OFF`
on the fixed handle `\_SB.PCI0.GPP0.PG00`; always returns 0. -/
def bbswitch_acpi_off (env : Env) (s : S) : Nat × S × List Event :=
  (0, { s with w := env.offSem s.w },
    [Event.evalObj "\\_SB.PCI0.GPP0.PG00" "_OFF"])

/-- Embedding of `bbswitch_acpi_on` (src/bbswitch.c:242): evaluate `_ON`
on the fixed handle `\_SB.PCI0.GPP0.PG00`; always returns 0. -/
def bbswitch_acpi_on (env : Env) (s : S) : Nat × S × List Event :=
  (0, { s with w := env.onSem s.w },
    [Event.evalObj "\\_SB.PCI0.GPP0.PG00" "_ON"])

/-- Embedding of `bbswitch_off` (src/bbswitch.c:281).  If the card is
already disabled, do nothing.  Otherwise the C code reads
`dis_dev->driver`; `none` models the NULL-pointer dereference that happens
when `dis_dev` is NULL at that read (the -1 status case).  With a bound
driver it refuses and returns; otherwise it evaluates `_OFF` and NULLs
`dis_dev`. -/
def bbswitch_off (env : Env) (s : S) : Option (S × List Event) :=
  let q := is_card_disabled s
  if q.1 = 1 then
    some (q.2.1, q.2.2)
  else if q.2.1.dis_dev = false then
    none
  else if q.2.1.w.driver.isSome then
    some (q.2.1, q.2.2)
  else
    let r := bbswitch_acpi_off env q.2.1
    some ({ r.2.1 with dis_dev := false }, q.2.2 ++ r.2.2)

/-- Embedding of the polling loop of `bbswitch_on` (src/bbswitch.c:309):
`while (dis_dev == NULL) { msleep(500); i++; get_dis_dev(); if (i > 4)
break; }`.  The fuel argument is `5 - i`, so the loop is entered with fuel
5 and the `i > 4` break corresponds to the fuel reaching 0 after an
iteration; the fuel-0 outer case is unreachable from that entry point. -/
def onLoop (env : Env) : Nat → S → S × List Event
  | f + 1, s =>
    if s.dis_dev then
      (s, [])
    else
      let s2 := get_dis_dev { s with w := env.tick s.w }
      if f = 0 then
        (s2, [Event.sleep 500, Event.getDev])
      else
        let r := onLoop env f s2
        (r.1, Event.sleep 500 :: Event.getDev :: r.2)
  | 0, s => (s, [])

/-- Embedding of `bbswitch_on` (src/bbswitch.c:300): no-op unless the card
is disabled; otherwise evaluate `_ON` and poll for the device to reappear
on the bus (at most 5 attempts, sleeping 500 ms before each). -/
def bbswitch_on (env : Env) (s : S) : S × List Event :=
  let q := is_card_disabled s
  if q.1 < 1 then
    (q.2.1, q.2.2)
  else
    let r := bbswitch_acpi_on env q.2.1
    let l := onLoop env 5 r.2.1
    (l.1, q.2.2 ++ r.2.2 ++ l.2)

/-- Embedding of the re-discovery loop of `dis_dev_get` (src/bbswitch.c:324):
like the `bbswitch_on` loop, but when `i > 4` it breaks only if the device
was found and otherwise returns from `dis_dev_get` early.  The Bool result
is `true` when control falls through to the bridge check and `false` for
the early return; the fuel-0 outer case is unreachable from the fuel-5
entry point. -/
def getLoop (env : Env) : Nat → S → S × List Event × Bool
  | f + 1, s =>
    if s.dis_dev then
      (s, [], true)
    else
      let s2 := get_dis_dev { s with w := env.tick s.w }
      if f = 0 then
        (s2, [Event.sleep 500, Event.getDev], s2.dis_dev)
      else
        let r := getLoop env f s2
        (r.1, Event.sleep 500 :: Event.getDev :: r.2.1, r.2.2)
  | 0, s => (s, [], true)

/-- Embedding of `dis_dev_get` (src/bbswitch.c:321): when the card is not
reported disabled, re-discover the device (bounded poll) and, if it was
found and has a parent bridge, take a runtime-PM reference on the bridge. -/
def dis_dev_get (env : Env) (s : S) : S × List Event :=
  let q := is_card_disabled s
  if q.1 < 1 then
    let l := getLoop env 5 q.2.1
    if l.2.2 then
      if env.hasBridge then
        (l.1, q.2.2 ++ l.2.1 ++ [Event.pmGet])
      else
        (l.1, q.2.2 ++ l.2.1)
    else
      (l.1, q.2.2 ++ l.2.1)
  else
    (q.2.1, q.2.2)

/-- Embedding of `dis_dev_put` (src/bbswitch.c:342): when the card is
reported enabled (status exactly 0), drop a runtime-PM reference on the
parent bridge. -/
def dis_dev_put (env : Env) (s : S) : S × List Event :=
  let q := is_card_disabled s
  if q.1 = 0 then
    if env.hasBridge then
      (q.2.1, q.2.2 ++ [Event.pmPut])
    else
      (q.2.1, q.2.2)
  else
    (q.2.1, q.2.2)

/-- Embedding of `bbswitch_proc_write` (src/bbswitch.c:349) for the `OFF`
command: `dis_dev_get(); bbswitch_off(); dis_dev_put();`. -/
def bbswitch_proc_write_OFF (env : Env) (s : S) : Option (S × List Event) :=
  let g := dis_dev_get env s
  match bbswitch_off env g.1 with
  | none => none
  | some r =>
    let p := dis_dev_put env r.1
    some (p.1, g.2 ++ r.2 ++ p.2)

/-- Embedding of `bbswitch_proc_write` (src/bbswitch.c:349) for the `ON`
command: `dis_dev_get(); bbswitch_on(); dis_dev_put();`. -/
def bbswitch_proc_write_ON (env : Env) (s : S) : S × List Event :=
  let g := dis_dev_get env s
  let r := bbswitch_on env g.1
  let p := dis_dev_put env r.1
  (p.1, g.2 ++ r.2 ++ p.2)

/-- Embedding of `bbswitch_proc_show` (src/bbswitch.c:372): the status read,
wrapped in the bus-reference guard; the String is the reported state word. -/
def bbswitch_proc_show (env : Env) (s : S) : S × List Event × String :=
  let g := dis_dev_get env s
  let q := is_card_disabled g.1
  let word := if 0 < q.1 then "OFF" else "ON"
  let p := dis_dev_put env q.2.1
  (p.1, g.2 ++ q.2.2 ++ p.2, word)

/-- Embedding of the `PM_SUSPEND_PREPARE` / `PM_HIBERNATION_PREPARE` arm of
`bbswitch_pm_handler` (src/bbswitch.c:387): take the bus reference, record
the current status in the suspend memory, run `bbswitch_on` — which, due to
the missing braces after `if (dis_before_suspend_disabled)` in the source,
runs unconditionally — and drop the bus reference. -/
def bbswitch_pm_suspend_prepare (env : Env) (s : S) : S × List Event :=
  let g := dis_dev_get env s
  let q := is_card_disabled g.1
  let s3 : S := { q.2.1 with dis_before_suspend_disabled := q.1 }
  let r := bbswitch_on env s3
  let p := dis_dev_put env r.1
  (p.1, g.2 ++ q.2.2 ++ r.2 ++ p.2)

/-- Embedding of the `PM_POST_SUSPEND` / `PM_POST_HIBERNATION` /
`PM_POST_RESTORE` arm of `bbswitch_pm_handler` (src/bbswitch.c:399): when
the suspend memory is non-zero (C truthiness), re-disable the card under
the bus-reference guard; otherwise do nothing. -/
def bbswitch_pm_post_resume (env : Env) (s : S) : Option (S × List Event) :=
  if s.dis_before_suspend_disabled ≠ 0 then
    let g := dis_dev_get env s
    match bbswitch_off env g.1 with
    | none => none
    | some r =>
      let p := dis_dev_put env r.1
      some (p.1, g.2 ++ r.2 ++ p.2)
  else
    some (s, [])

/-- Overriding only the start-up configuration fields of a state. -/
def setDsm (d : Nat) (b : Bool) (s : S) : S :=
  { s with dsm_type := d, skip_optimus_dsm := b }

/-- A world in which the card is on and bus-visible, with no bound driver. -/
def wOn : World := { sgst := 1, busVisible := true, driver := none }

/-- A world in which the card is off and not bus-visible. -/
def wOff : World := { sgst := 0, busVisible := false, driver := none }

/-- A world in which the firmware reports on but the card is not
bus-visible (the mid-transition situation). -/
def wMid : World := { sgst := 1, busVisible := false, driver := none }

/-- A world in which the card is on, bus-visible, and bound to a driver. -/
def wDrv : World := { sgst := 1, busVisible := true, driver := some "nvidia" }

/-- A state over a given world with a given `dis_dev`, suspend memory 0 and
unsupported interface configuration. -/
def mkS (w : World) (d : Bool) : S :=
  { w := w, dis_dev := d, dis_before_suspend_disabled := 0,
    dsm_type := 0, skip_optimus_dsm := false }

/-- A nominal environment: `_OFF` powers the card down and removes it from
the bus, `_ON` powers it up, and the device becomes bus-visible after one
500 ms sleep; the adapter has a parent bridge. -/
def envNominal : Env :=
  { offSem := fun w => { w with sgst := 0, busVisible := false },
    onSem := fun w => { w with sgst := 1 },
    tick := fun w => { w with busVisible := true },
    hasBridge := true }

/-- An environment in which the device never becomes bus-visible again
after `_ON` (time passing changes nothing). -/
def envStall : Env :=
  { offSem := fun w => { w with sgst := 0, busVisible := false },
    onSem := fun w => { w with sgst := 1 },
    tick := id,
    hasBridge := true }

theorem decide_and_one_shiftLeft (m k : Nat) :
    decide (m &&& 1 <<< k ≠ 0) = m.testBit k := by
  rw [Nat.one_shiftLeft, Nat.and_two_pow]
  cases h : m.testBit k <;> simp [Nat.pow_eq_zero]

theorem acpi_call_dsm_fst_of_ok (obj : AcpiObj) (res : Option Nat) :
    (acpi_call_dsm 0 obj res).1 = 0 := by
  unfold acpi_call_dsm
  simp only [ne_eq, not_true_eq_false, if_false, ite_false]
  split <;> rfl

theorem get_dis_dev_eq (s : S) :
    get_dis_dev s = { s with dis_dev := s.dis_dev || s.w.busVisible } := by
  cases hb : s.w.busVisible <;> simp [get_dis_dev, hb]

theorem get_dis_dev_of_not_visible (s : S) (h : s.w.busVisible = false) :
    get_dis_dev s = s := by
  simp [get_dis_dev, h]

theorem dis_dev_update_eta (s : S) (h : s.dis_dev = true) :
    ({ s with dis_dev := true } : S) = s := by
  cases s
  simp at h
  simp [h]

theorem icd_off (s : S) (h : s.w.sgst ≤ 0) :
    is_card_disabled s = (1, s, [Event.evalObj "\\_SB.PCI0.GPP0.PEGP" "SGST"]) := by
  have h1 : ¬ (0 < s.w.sgst) := by omega
  simp [is_card_disabled, h1]

theorem icd_on (s : S) (h : 0 < s.w.sgst) (h2 : (s.dis_dev || s.w.busVisible) = true) :
    is_card_disabled s =
      (0, { s with dis_dev := true },
        [Event.evalObj "\\_SB.PCI0.GPP0.PEGP" "SGST", Event.getDev]) := by
  rcases hb : s.w.busVisible with _ | _
  · have hd : s.dis_dev = true := by simpa [hb] using h2
    simp [is_card_disabled, h, get_dis_dev, hb, hd, dis_dev_update_eta s hd]
  · simp [is_card_disabled, h, get_dis_dev, hb]

theorem icd_mid (s : S) (h : 0 < s.w.sgst) (hd : s.dis_dev = false)
    (hb : s.w.busVisible = false) :
    is_card_disabled s =
      (-1, s, [Event.evalObj "\\_SB.PCI0.GPP0.PEGP" "SGST", Event.getDev]) := by
  simp [is_card_disabled, h, get_dis_dev, hb, hd]

theorem statusOf_off (s : S) (h : s.w.sgst ≤ 0) : statusOf s = 1 := by
  simp [statusOf, icd_off s h]

theorem statusOf_on (s : S) (h : 0 < s.w.sgst)
    (h2 : (s.dis_dev || s.w.busVisible) = true) : statusOf s = 0 := by
  simp [statusOf, icd_on s h h2]

theorem statusOf_mid (s : S) (h : 0 < s.w.sgst) (hd : s.dis_dev = false)
    (hb : s.w.busVisible = false) : statusOf s = -1 := by
  simp [statusOf, icd_mid s h hd hb]

/-- C8: if evaluation of the firmware method fails (`acpi_evaluate_object`
returns a non-zero status), `acpi_call_dsm` returns that non-zero failure
indicator and the caller-supplied output slot is left unchanged. -/
theorem dsm_failure_no_write (err : Nat) (obj : AcpiObj) (result : Option Nat)
    (h : err ≠ 0) :
    (acpi_call_dsm err obj result).1 ≠ 0 ∧
    (acpi_call_dsm err obj result).2 = result := by
  simp [acpi_call_dsm, h]

theorem dsm_failure_no_write_witness :
    (acpi_call_dsm 3 (AcpiObj.intVal 9) (some 4)).1 ≠ 0 ∧
    (acpi_call_dsm 3 (AcpiObj.intVal 9) (some 4)).2 = some 4 :=
  dsm_failure_no_write 3 (AcpiObj.intVal 9) (some 4) (by decide)

theorem has_dsm_func_ok (obj : AcpiObj) (sfnc : Nat) :
    has_dsm_func 0 obj sfnc
      = ((dsm_mask obj).testBit 0 && (dsm_mask obj).testBit sfnc) := by
  simp only [has_dsm_func, acpi_call_dsm_fst_of_ok]
  rw [if_neg (fun h => h rfl)]
  have h0 : decide ((acpi_call_dsm 0 obj (some 0)).2.getD 0 &&& 1 ≠ 0)
      = ((acpi_call_dsm 0 obj (some 0)).2.getD 0).testBit 0 := by
    rw [show ((acpi_call_dsm 0 obj (some 0)).2.getD 0 &&& 1)
          = ((acpi_call_dsm 0 obj (some 0)).2.getD 0 &&& 1 <<< 0) from rfl]
    exact decide_and_one_shiftLeft _ 0
  rw [h0, decide_and_one_shiftLeft]
  rfl

/-- C7: the capability probe (in both its `has_dsm_func` and
`handle_has_dsm_func` variants) returns false whenever the underlying
firmware call with function index 0 fails, regardless of the requested
index; and when that call succeeds leaving mask value `m` in the result
slot, it returns true if and only if bit 0 of `m` and bit `sfnc` of `m`
are both set. -/
theorem capability_probe (err : Nat) (obj : AcpiObj) (sfnc : Nat) :
    (err ≠ 0 → has_dsm_func err obj sfnc = false ∧
      handle_has_dsm_func err obj sfnc = false) ∧
    (err = 0 →
      (has_dsm_func err obj sfnc = true ↔
        ((dsm_mask obj).testBit 0 = true ∧ (dsm_mask obj).testBit sfnc = true)) ∧
      handle_has_dsm_func err obj sfnc = has_dsm_func err obj sfnc) := by
  constructor
  · intro h
    constructor <;> simp [has_dsm_func, handle_has_dsm_func, acpi_call_dsm, h]
  · intro h
    subst h
    refine ⟨?_, rfl⟩
    rw [has_dsm_func_ok]
    simp [Bool.and_eq_true]

theorem capability_probe_witness :
    has_dsm_func 5 (AcpiObj.intVal 7) 2 = false ∧
    has_dsm_func 0 (AcpiObj.intVal 5) 2 = true := by
  constructor
  · exact ((capability_probe 5 (AcpiObj.intVal 7) 2).1 (by decide)).1
  · exact ((capability_probe 0 (AcpiObj.intVal 5) 2).2 rfl).1.mpr (by decide)

/-- C5: the status query maps a positive `SGST` value to on (0) — unless
the live bus-device reference is NULL even after the relocation attempt, in
which case it returns indeterminate (-1) rather than on — and a
non-positive value to off (1). -/
theorem status_query_mapping (s : S) :
    (s.w.sgst ≤ 0 → (is_card_disabled s).1 = 1) ∧
    (0 < s.w.sgst → (is_card_disabled s).2.1.dis_dev = true →
      (is_card_disabled s).1 = 0) ∧
    (0 < s.w.sgst → (is_card_disabled s).2.1.dis_dev = false →
      (is_card_disabled s).1 = -1) := by
  refine ⟨fun h => by simp [icd_off s h], fun h hloc => ?_, fun h hloc => ?_⟩
  · rcases hor : (s.dis_dev || s.w.busVisible) with _ | _
    · rcases Bool.or_eq_false_iff.mp hor with ⟨hd, hb⟩
      rw [icd_mid s h hd hb] at hloc
      simp [hd] at hloc
    · simp [icd_on s h hor]
  · rcases hor : (s.dis_dev || s.w.busVisible) with _ | _
    · rcases Bool.or_eq_false_iff.mp hor with ⟨hd, hb⟩
      simp [icd_mid s h hd hb]
    · rw [icd_on s h hor] at hloc
      simp at hloc

theorem status_query_mapping_witness :
    (is_card_disabled (mkS wOff false)).1 = 1 ∧
    (is_card_disabled (mkS wOn false)).1 = 0 ∧
    (is_card_disabled (mkS wMid false)).1 = -1 :=
  ⟨(status_query_mapping (mkS wOff false)).1 (by decide),
   (status_query_mapping (mkS wOn false)).2.1 (by decide) (by decide),
   (status_query_mapping (mkS wMid false)).2.2 (by decide) (by decide)⟩

/-- C1: whenever the live device reference is non-NULL and has a bound
driver, the off-transition refuses: it performs no `_OFF` evaluation, does
not clear `dis_dev` (the state is returned unchanged), and the observable
status afterwards equals the status before the call. -/
theorem refusal_invariant (env : Env) (s : S) (dname : String)
    (hdev : s.dis_dev = true) (hdrv : s.w.driver = some dname) :
    ∃ ev, bbswitch_off env s = some (s, ev) ∧
      Event.evalObj "\\_SB.PCI0.GPP0.PG00" "_OFF" ∉ ev ∧
      (bbswitch_off env s).map (fun r => r.1.dis_dev) = some true ∧
      (bbswitch_off env s).map (fun r => statusOf r.1) = some (statusOf s) := by
  rcases le_or_lt s.w.sgst 0 with h | h
  · refine ⟨[Event.evalObj "\\_SB.PCI0.GPP0.PEGP" "SGST"], ?_⟩
    have hoff : bbswitch_off env s
        = some (s, [Event.evalObj "\\_SB.PCI0.GPP0.PEGP" "SGST"]) := by
      simp [bbswitch_off, icd_off s h]
    simp [hoff, hdev]
  · have h2 : (s.dis_dev || s.w.busVisible) = true := by simp [hdev]
    refine ⟨[Event.evalObj "\\_SB.PCI0.GPP0.PEGP" "SGST", Event.getDev], ?_⟩
    have hoff : bbswitch_off env s
        = some (s, [Event.evalObj "\\_SB.PCI0.GPP0.PEGP" "SGST", Event.getDev]) := by
      simp [bbswitch_off, icd_on s h h2, dis_dev_update_eta s hdev, hdev, hdrv]
    simp [hoff, hdev]

theorem refusal_invariant_witness :
    ∃ ev, bbswitch_off envNominal (mkS wDrv true) = some (mkS wDrv true, ev) ∧
      Event.evalObj "\\_SB.PCI0.GPP0.PG00" "_OFF" ∉ ev ∧
      (bbswitch_off envNominal (mkS wDrv true)).map (fun r => r.1.dis_dev)
        = some true ∧
      (bbswitch_off envNominal (mkS wDrv true)).map (fun r => statusOf r.1)
        = some (statusOf (mkS wDrv true)) :=
  refusal_invariant envNominal (mkS wDrv true) "nvidia" rfl rfl

theorem sgst_iterate (env : Env) (htick : ∀ w, (env.tick w).sgst = w.sgst) :
    ∀ (k : Nat) (w : World), ((env.tick)^[k] w).sgst = w.sgst := by
  intro k
  induction k with
  | zero => intro w; rfl
  | succ k ih =>
    intro w
    rw [Function.iterate_succ_apply, ih, htick]

theorem onLoop_of_found (env : Env) (f : Nat) (s : S) (h : s.dis_dev = true) :
    onLoop env f s = (s, []) := by
  cases f <;> simp [onLoop, h]

theorem onLoop_stall (env : Env) (f : Nat) : ∀ (s : S), s.dis_dev = false →
    (∀ k, 1 ≤ k → k ≤ f → ((env.tick)^[k] s.w).busVisible = false) →
    onLoop env f s = ({ s with w := (env.tick)^[f] s.w },
      (List.replicate f [Event.sleep 500, Event.getDev]).flatten) := by
  induction f with
  | zero => intro s _ _; simp [onLoop]
  | succ f ih =>
    intro s hd hv
    have h1 : (env.tick s.w).busVisible = false := by
      have h2 := hv 1 (by omega) (by omega)
      simpa using h2
    rcases Nat.eq_zero_or_pos f with hf | hf
    · subst hf
      simp [onLoop, hd, get_dis_dev_of_not_visible, h1]
    · have hf0 : f ≠ 0 := by omega
      have ihs := ih { s with w := env.tick s.w } hd (by
        intro k hk1 hk2
        have h3 := hv (k + 1) (by omega) (by omega)
        simpa [Function.iterate_succ_apply] using h3)
      simp only [hd] at ihs
      simp [onLoop, hd, get_dis_dev_of_not_visible, h1, hf0, ihs,
        Function.iterate_succ_apply, List.replicate_succ]

theorem get_dis_dev_of_visible (s : S) (h : s.w.busVisible = true) :
    get_dis_dev s = { s with dis_dev := true } := by
  simp [get_dis_dev, h]

theorem getLoop_of_found (env : Env) (f : Nat) (s : S) (h : s.dis_dev = true) :
    getLoop env f s = (s, [], true) := by
  cases f <;> simp [getLoop, h]

theorem getLoop_spec (env : Env) (f : Nat) : ∀ (s : S), s.dis_dev = false → 1 ≤ f →
    (∃ k, 1 ≤ k ∧ k ≤ f ∧
      getLoop env f s = ({ s with w := (env.tick)^[k] s.w, dis_dev := true },
        (List.replicate k [Event.sleep 500, Event.getDev]).flatten, true) ∧
      ((env.tick)^[k] s.w).busVisible = true) ∨
    (getLoop env f s = ({ s with w := (env.tick)^[f] s.w },
        (List.replicate f [Event.sleep 500, Event.getDev]).flatten, false) ∧
      ((env.tick)^[f] s.w).busVisible = false) := by
  induction f with
  | zero => intro s _ hf; omega
  | succ f ih =>
    intro s hd _
    rcases hb : (env.tick s.w).busVisible with _ | _
    · rcases Nat.eq_zero_or_pos f with hf | hf
      · subst hf
        refine Or.inr ⟨?_, by simpa using hb⟩
        simp [getLoop, hd, get_dis_dev_of_not_visible, hb]
      · have hf0 : f ≠ 0 := by omega
        have ihs := ih { s with w := env.tick s.w } hd (by omega)
        simp only [hd] at ihs
        rcases ihs with ⟨k, hk1, hk2, heq, hkb⟩ | ⟨heq, hfb⟩
        · refine Or.inl ⟨k + 1, by omega, by omega, ?_, ?_⟩
          · simp [getLoop, hd, get_dis_dev_of_not_visible, hb, hf0, heq,
              Function.iterate_succ_apply, List.replicate_succ]
          · simpa [Function.iterate_succ_apply] using hkb
        · refine Or.inr ⟨?_, ?_⟩
          · simp [getLoop, hd, get_dis_dev_of_not_visible, hb, hf0, heq,
              Function.iterate_succ_apply, List.replicate_succ]
          · simpa [Function.iterate_succ_apply] using hfb
    · refine Or.inl ⟨1, by omega, by omega, ?_, by simpa using hb⟩
      rcases Nat.eq_zero_or_pos f with hf | hf
      · subst hf
        simp [getLoop, hd, get_dis_dev_of_visible, hb]
      · have hf0 : f ≠ 0 := by omega
        have hfound := getLoop_of_found env f
          { s with w := env.tick s.w, dis_dev := true } rfl
        simp [getLoop, hd, get_dis_dev_of_visible, hb, hf0, hfound]

theorem count_flatten_replicate (n : Nat) (e : Event) (h1 : ¬ e = Event.sleep 500)
    (h2 : ¬ e = Event.getDev) :
    ((List.replicate n [Event.sleep 500, Event.getDev]).flatten.count e) = 0 := by
  induction n with
  | zero => rfl
  | succ n ih =>
    simp [List.replicate_succ, List.count_cons, ih, h1, h2, Ne.symm h1, Ne.symm h2]

/-- C6: an on-transition during which the device never reappears on the bus
performs exactly 5 relocation attempts, each preceded by one fixed 500 ms
sleep (the full event trace is given literally), terminates, leaves the
live device reference NULL, and the status afterwards is indeterminate
(-1), not on. -/
theorem bounded_retry (env : Env) (s : S)
    (h0 : s.w.sgst ≤ 0) (hdev : s.dis_dev = false)
    (htick : ∀ w, (env.tick w).sgst = w.sgst)
    (hon : 0 < (env.onSem s.w).sgst)
    (hvis : ∀ k, ((env.tick)^[k] (env.onSem s.w)).busVisible = false) :
    bbswitch_on env s
      = ({ s with w := (env.tick)^[5] (env.onSem s.w) },
         [Event.evalObj "\\_SB.PCI0.GPP0.PEGP" "SGST",
          Event.evalObj "\\_SB.PCI0.GPP0.PG00" "_ON",
          Event.sleep 500, Event.getDev, Event.sleep 500, Event.getDev,
          Event.sleep 500, Event.getDev, Event.sleep 500, Event.getDev,
          Event.sleep 500, Event.getDev]) ∧
    (bbswitch_on env s).1.dis_dev = false ∧
    statusOf (bbswitch_on env s).1 = -1 := by
  have hloop := onLoop_stall env 5 { s with w := env.onSem s.w } hdev
    (fun k hk1 hk2 => hvis k)
  have hmain : bbswitch_on env s
      = ({ s with w := (env.tick)^[5] (env.onSem s.w) },
         [Event.evalObj "\\_SB.PCI0.GPP0.PEGP" "SGST",
          Event.evalObj "\\_SB.PCI0.GPP0.PG00" "_ON",
          Event.sleep 500, Event.getDev, Event.sleep 500, Event.getDev,
          Event.sleep 500, Event.getDev, Event.sleep 500, Event.getDev,
          Event.sleep 500, Event.getDev]) := by
    simp only [bbswitch_on, icd_off s h0, bbswitch_acpi_on, hloop]
    norm_num [List.replicate_succ]
  refine ⟨hmain, ?_, ?_⟩
  · rw [hmain]
    exact hdev
  · rw [hmain]
    have h5 : ((env.tick)^[5] (env.onSem s.w)).sgst = (env.onSem s.w).sgst :=
      sgst_iterate env htick 5 (env.onSem s.w)
    refine statusOf_mid _ ?_ hdev (hvis 5)
    show 0 < ((env.tick)^[5] (env.onSem s.w)).sgst
    omega

theorem bounded_retry_witness :
    bbswitch_on envStall (mkS wOff false)
      = ({ mkS wOff false with w := (envStall.tick)^[5] (envStall.onSem wOff) },
         [Event.evalObj "\\_SB.PCI0.GPP0.PEGP" "SGST",
          Event.evalObj "\\_SB.PCI0.GPP0.PG00" "_ON",
          Event.sleep 500, Event.getDev, Event.sleep 500, Event.getDev,
          Event.sleep 500, Event.getDev, Event.sleep 500, Event.getDev,
          Event.sleep 500, Event.getDev]) ∧
    (bbswitch_on envStall (mkS wOff false)).1.dis_dev = false ∧
    statusOf (bbswitch_on envStall (mkS wOff false)).1 = -1 :=
  bounded_retry envStall (mkS wOff false) (by decide) rfl (fun w => rfl)
    (by decide) (fun k => by simp [envStall, Function.iterate_id, wOff, mkS])

/-- C2 (amended): the bridge power-reference acquire and release are
exactly paired for every wrapped operation that leaves the power state
unchanged — in particular for every status read — as long as time passing
during the re-discovery poll does not change the firmware status value: the
status-read trace holds equally many `pmGet` and `pmPut` events. -/
theorem status_read_pairing (env : Env) (s : S)
    (htick : ∀ w, (env.tick w).sgst = w.sgst) :
    (bbswitch_proc_show env s).2.1.count Event.pmGet
      = (bbswitch_proc_show env s).2.1.count Event.pmPut := by
  rcases le_or_lt s.w.sgst 0 with h | h
  · have hicd := icd_off s h
    have hg : dis_dev_get env s = (s, [Event.evalObj "\\_SB.PCI0.GPP0.PEGP" "SGST"]) := by
      simp [dis_dev_get, hicd]
    have hp : dis_dev_put env s = (s, [Event.evalObj "\\_SB.PCI0.GPP0.PEGP" "SGST"]) := by
      simp [dis_dev_put, hicd]
    simp [bbswitch_proc_show, hg, hicd, hp]
  · rcases hor : (s.dis_dev || s.w.busVisible) with _ | _
    · rcases Bool.or_eq_false_iff.mp hor with ⟨hd, hb⟩
      have hicd := icd_mid s h hd hb
      rcases getLoop_spec env 5 s hd (by omega) with ⟨k, hk1, hk5, hgl, hkvis⟩ | ⟨hgl, hvis5⟩
      · have hsg : ((env.tick)^[k] s.w).sgst = s.w.sgst := sgst_iterate env htick k s.w
        have hicdF : is_card_disabled { s with w := (env.tick)^[k] s.w, dis_dev := true }
            = (0, { s with w := (env.tick)^[k] s.w, dis_dev := true },
               [Event.evalObj "\\_SB.PCI0.GPP0.PEGP" "SGST", Event.getDev]) :=
          icd_on _ (by show 0 < ((env.tick)^[k] s.w).sgst; omega) (by simp)
        rcases hbr : env.hasBridge with _ | _
        · have hg : dis_dev_get env s
              = ({ s with w := (env.tick)^[k] s.w, dis_dev := true },
                 [Event.evalObj "\\_SB.PCI0.GPP0.PEGP" "SGST", Event.getDev]
                   ++ (List.replicate k [Event.sleep 500, Event.getDev]).flatten) := by
            simp [dis_dev_get, hicd, hgl, hbr]
          have hp : dis_dev_put env { s with w := (env.tick)^[k] s.w, dis_dev := true }
              = ({ s with w := (env.tick)^[k] s.w, dis_dev := true },
                 [Event.evalObj "\\_SB.PCI0.GPP0.PEGP" "SGST", Event.getDev]) := by
            simp [dis_dev_put, hicdF, hbr]
          simp [bbswitch_proc_show, hg, hicdF, hp, List.count_append,
            count_flatten_replicate]
        · have hg : dis_dev_get env s
              = ({ s with w := (env.tick)^[k] s.w, dis_dev := true },
                 [Event.evalObj "\\_SB.PCI0.GPP0.PEGP" "SGST", Event.getDev]
                   ++ (List.replicate k [Event.sleep 500, Event.getDev]).flatten
                   ++ [Event.pmGet]) := by
            simp [dis_dev_get, hicd, hgl, hbr]
          have hp : dis_dev_put env { s with w := (env.tick)^[k] s.w, dis_dev := true }
              = ({ s with w := (env.tick)^[k] s.w, dis_dev := true },
                 [Event.evalObj "\\_SB.PCI0.GPP0.PEGP" "SGST", Event.getDev]
                   ++ [Event.pmPut]) := by
            simp [dis_dev_put, hicdF, hbr]
          simp [bbswitch_proc_show, hg, hicdF, hp, List.count_append,
            count_flatten_replicate]
      · have hsg : ((env.tick)^[5] s.w).sgst = s.w.sgst := sgst_iterate env htick 5 s.w
        have hicdF : is_card_disabled { s with w := (env.tick)^[5] s.w }
            = (-1, { s with w := (env.tick)^[5] s.w },
               [Event.evalObj "\\_SB.PCI0.GPP0.PEGP" "SGST", Event.getDev]) :=
          icd_mid _ (by show 0 < ((env.tick)^[5] s.w).sgst; omega) hd hvis5
        have hg : dis_dev_get env s
            = ({ s with w := (env.tick)^[5] s.w },
               [Event.evalObj "\\_SB.PCI0.GPP0.PEGP" "SGST", Event.getDev]
                 ++ (List.replicate 5 [Event.sleep 500, Event.getDev]).flatten) := by
          simp only [dis_dev_get, hicd, hgl]
          norm_num
        have hp : dis_dev_put env { s with w := (env.tick)^[5] s.w }
            = ({ s with w := (env.tick)^[5] s.w },
               [Event.evalObj "\\_SB.PCI0.GPP0.PEGP" "SGST", Event.getDev]) := by
          simp only [dis_dev_put, hicdF]
          norm_num
        simp only [bbswitch_proc_show, hg, hicdF, hp]
        simp [List.count_append, count_flatten_replicate]
    · have hicd := icd_on s h hor
      have hicd1 : is_card_disabled { s with dis_dev := true }
          = (0, { s with dis_dev := true },
             [Event.evalObj "\\_SB.PCI0.GPP0.PEGP" "SGST", Event.getDev]) :=
        icd_on _ h (by simp)
      have hgl := getLoop_of_found env 5 { s with dis_dev := true } rfl
      rcases hbr : env.hasBridge with _ | _
      · have hg : dis_dev_get env s
            = ({ s with dis_dev := true },
               [Event.evalObj "\\_SB.PCI0.GPP0.PEGP" "SGST", Event.getDev]) := by
          simp [dis_dev_get, hicd, hgl, hbr]
        have hp : dis_dev_put env { s with dis_dev := true }
            = ({ s with dis_dev := true },
               [Event.evalObj "\\_SB.PCI0.GPP0.PEGP" "SGST", Event.getDev]) := by
          simp [dis_dev_put, hicd1, hbr]
        simp [bbswitch_proc_show, hg, hicd1, hp, List.count_append]
      · have hg : dis_dev_get env s
            = ({ s with dis_dev := true },
               [Event.evalObj "\\_SB.PCI0.GPP0.PEGP" "SGST", Event.getDev]
                 ++ [Event.pmGet]) := by
          simp [dis_dev_get, hicd, hgl, hbr]
        have hp : dis_dev_put env { s with dis_dev := true }
            = ({ s with dis_dev := true },
               [Event.evalObj "\\_SB.PCI0.GPP0.PEGP" "SGST", Event.getDev]
                 ++ [Event.pmPut]) := by
          simp [dis_dev_put, hicd1, hbr]
        simp [bbswitch_proc_show, hg, hicd1, hp, List.count_append]

theorem status_read_pairing_witness :
    (bbswitch_proc_show envNominal (mkS wOn true)).2.1.count Event.pmGet
      = (bbswitch_proc_show envNominal (mkS wOn true)).2.1.count Event.pmPut :=
  status_read_pairing envNominal (mkS wOn true) (fun _ => rfl)

theorem onLoop_post (env : Env) (f : Nat) : ∀ (s : S),
    (s.dis_dev = true ∧ onLoop env f s = (s, [])) ∨
    (∃ k, 1 ≤ k ∧ k ≤ f ∧
      (onLoop env f s).1 = { s with w := (env.tick)^[k] s.w, dis_dev := true } ∧
      ((env.tick)^[k] s.w).busVisible = true) ∨
    ((onLoop env f s).1 = { s with w := (env.tick)^[f] s.w } ∧ s.dis_dev = false ∧
      (((env.tick)^[f] s.w).busVisible = false ∨ f = 0)) := by
  induction f with
  | zero =>
    intro s
    rcases Bool.eq_false_or_eq_true s.dis_dev with hd | hd
    · exact Or.inl ⟨hd, by simp [onLoop, hd]⟩
    · exact Or.inr (Or.inr ⟨by simp [onLoop], hd, Or.inr rfl⟩)
  | succ f ih =>
    intro s
    rcases Bool.eq_false_or_eq_true s.dis_dev with hd | hd
    case inl => exact Or.inl ⟨hd, onLoop_of_found env (f + 1) s hd⟩
    rcases hb : (env.tick s.w).busVisible with _ | _
    · rcases Nat.eq_zero_or_pos f with hf | hf
      · subst hf
        refine Or.inr (Or.inr ⟨?_, hd, Or.inl (by simpa using hb)⟩)
        simp [onLoop, hd, get_dis_dev_of_not_visible, hb]
      · have hf0 : f ≠ 0 := by omega
        have ihs := ih { s with w := env.tick s.w }
        simp only [hd] at ihs
        have hstep : (onLoop env (f + 1) s).1
            = (onLoop env f { s with w := env.tick s.w, dis_dev := false }).1 := by
          simp [onLoop, hd, get_dis_dev_of_not_visible, hb, hf0]
        rcases ihs with ⟨hdd, _⟩ | ⟨k, hk1, hk2, heq, hkb⟩ | ⟨heq, _, hfb⟩
        · simp at hdd
        · refine Or.inr (Or.inl ⟨k + 1, by omega, by omega, ?_, ?_⟩)
          · rw [hstep, heq]
            simp [Function.iterate_succ_apply, hd]
          · simpa [Function.iterate_succ_apply] using hkb
        · refine Or.inr (Or.inr ⟨?_, hd, ?_⟩)
          · rw [hstep, heq]
            simp [Function.iterate_succ_apply, hd]
          · rcases hfb with hfb | hfb
            · exact Or.inl (by simpa [Function.iterate_succ_apply] using hfb)
            · omega
    · refine Or.inr (Or.inl ⟨1, by omega, by omega, ?_, by simpa using hb⟩)
      rcases Nat.eq_zero_or_pos f with hf | hf
      · subst hf
        simp [onLoop, hd, get_dis_dev_of_visible, hb]
      · have hf0 : f ≠ 0 := by omega
        have hfound := onLoop_of_found env f
          { s with w := env.tick s.w, dis_dev := true } rfl
        simp [onLoop, hd, get_dis_dev_of_visible, hb, hf0, hfound]

/-- C9: both transitions are idempotent in observable status under nominal
firmware semantics (`_OFF` drops the status to non-positive, `_ON` raises
it, sleeping does not change it): running the off-transition twice yields
the same observable status as running it once — a crash (NULL dereference,
`none`) on the first run propagates — and likewise for the on-transition. -/
theorem transition_idempotence (env : Env) (s : S)
    (hoffsem : ∀ w, (env.offSem w).sgst ≤ 0)
    (honsem : ∀ w, 0 < (env.onSem w).sgst)
    (htick : ∀ w, (env.tick w).sgst = w.sgst) :
    (((bbswitch_off env s).bind fun r => bbswitch_off env r.1).map
        (fun r => statusOf r.1))
      = (bbswitch_off env s).map (fun r => statusOf r.1) ∧
    statusOf (bbswitch_on env (bbswitch_on env s).1).1
      = statusOf (bbswitch_on env s).1 := by
  constructor
  · rcases le_or_lt s.w.sgst 0 with h | h
    · have h1 : bbswitch_off env s
          = some (s, [Event.evalObj "\\_SB.PCI0.GPP0.PEGP" "SGST"]) := by
        simp [bbswitch_off, icd_off s h]
      simp [h1]
    · rcases hor : (s.dis_dev || s.w.busVisible) with _ | _
      · rcases Bool.or_eq_false_iff.mp hor with ⟨hd, hb⟩
        have h1 : bbswitch_off env s = none := by
          simp [bbswitch_off, icd_mid s h hd hb, hd]
        simp [h1]
      · have hicd1 : is_card_disabled { s with dis_dev := true }
            = (0, { s with dis_dev := true },
               [Event.evalObj "\\_SB.PCI0.GPP0.PEGP" "SGST", Event.getDev]) :=
          icd_on _ h (by simp)
        rcases hdr : s.w.driver with _ | dn
        · have h1 : bbswitch_off env s
              = some ({ s with w := env.offSem s.w, dis_dev := false },
                 [Event.evalObj "\\_SB.PCI0.GPP0.PEGP" "SGST", Event.getDev]
                   ++ [Event.evalObj "\\_SB.PCI0.GPP0.PG00" "_OFF"]) := by
            simp [bbswitch_off, icd_on s h hor, hdr, bbswitch_acpi_off]
          have h2 : bbswitch_off env { s with w := env.offSem s.w, dis_dev := false }
              = some ({ s with w := env.offSem s.w, dis_dev := false },
                 [Event.evalObj "\\_SB.PCI0.GPP0.PEGP" "SGST"]) := by
            have hs : ({ s with w := env.offSem s.w, dis_dev := false } : S).w.sgst ≤ 0 :=
              hoffsem s.w
            simp [bbswitch_off, icd_off _ hs]
          simp [h1, h2]
        · have h1 : bbswitch_off env s
              = some ({ s with dis_dev := true },
                 [Event.evalObj "\\_SB.PCI0.GPP0.PEGP" "SGST", Event.getDev]) := by
            simp [bbswitch_off, icd_on s h hor, hdr]
          have h2 : bbswitch_off env { s with dis_dev := true }
              = some ({ s with dis_dev := true },
                 [Event.evalObj "\\_SB.PCI0.GPP0.PEGP" "SGST", Event.getDev]) := by
            simp [bbswitch_off, hicd1, hdr]
          simp [h1, h2]
  · rcases le_or_lt s.w.sgst 0 with h | h
    · have hfst : (bbswitch_on env s).1
          = (onLoop env 5 { s with w := env.onSem s.w }).1 := by
        simp [bbswitch_on, icd_off s h, bbswitch_acpi_on]
      have hsg0 : 0 < (env.onSem s.w).sgst := honsem s.w
      rcases onLoop_post env 5 { s with w := env.onSem s.w }
        with ⟨hdd, heq⟩ | ⟨k, hk1, hk2, heq, hkb⟩ | ⟨heq, hdd, hfb⟩
      · have hdd2 : s.dis_dev = true := hdd
        have hL : (onLoop env 5 { s with w := env.onSem s.w }).1
            = { s with w := env.onSem s.w } := by rw [heq]
        have hon2 : (0:Int) < ({ s with w := env.onSem s.w } : S).w.sgst := hsg0
        have hor2 : (({ s with w := env.onSem s.w } : S).dis_dev
            || ({ s with w := env.onSem s.w } : S).w.busVisible) = true := by
          simp [hdd2]
        rw [hfst, hL]
        have h2 : (bbswitch_on env { s with w := env.onSem s.w }).1
            = { s with w := env.onSem s.w, dis_dev := true } := by
          simp only [bbswitch_on, icd_on _ hon2 hor2]
          norm_num
        rw [h2, statusOf_on _ hon2 hor2]
        exact statusOf_on _ hsg0 (by simp)
      · have hsgk : ((env.tick)^[k] (env.onSem s.w)).sgst = (env.onSem s.w).sgst :=
          sgst_iterate env htick k (env.onSem s.w)
        have hon2 : (0:Int) < (({ s with w := (env.tick)^[k] (env.onSem s.w), dis_dev := true } : S)).w.sgst := by
          show 0 < ((env.tick)^[k] (env.onSem s.w)).sgst
          omega
        have hor2 : (({ s with w := (env.tick)^[k] (env.onSem s.w), dis_dev := true } : S).dis_dev
            || ({ s with w := (env.tick)^[k] (env.onSem s.w), dis_dev := true } : S).w.busVisible)
            = true := by simp
        have hL : (onLoop env 5 { s with w := env.onSem s.w }).1
            = { s with w := (env.tick)^[k] (env.onSem s.w), dis_dev := true } := heq
        rw [hfst, hL]
        have h2 : (bbswitch_on env
              { s with w := (env.tick)^[k] (env.onSem s.w), dis_dev := true }).1
            = { s with w := (env.tick)^[k] (env.onSem s.w), dis_dev := true } := by
          simp only [bbswitch_on, icd_on _ hon2 hor2]
          norm_num
        rw [h2]
      · have hdd2 : s.dis_dev = false := hdd
        have hb5 : ((env.tick)^[5] (env.onSem s.w)).busVisible = false := by
          rcases hfb with hfb | hfb
          · exact hfb
          · omega
        have hsg5 : ((env.tick)^[5] (env.onSem s.w)).sgst = (env.onSem s.w).sgst :=
          sgst_iterate env htick 5 (env.onSem s.w)
        have hon2 : (0:Int) < ({ s with w := (env.tick)^[5] (env.onSem s.w) } : S).w.sgst := by
          show 0 < ((env.tick)^[5] (env.onSem s.w)).sgst
          omega
        have hL : (onLoop env 5 { s with w := env.onSem s.w }).1
            = { s with w := (env.tick)^[5] (env.onSem s.w) } := heq
        rw [hfst, hL]
        have hicdF : is_card_disabled { s with w := (env.tick)^[5] (env.onSem s.w) }
            = (-1, { s with w := (env.tick)^[5] (env.onSem s.w) },
               [Event.evalObj "\\_SB.PCI0.GPP0.PEGP" "SGST", Event.getDev]) :=
          icd_mid _ hon2 hdd2 hb5
        have h2 : (bbswitch_on env { s with w := (env.tick)^[5] (env.onSem s.w) }).1
            = { s with w := (env.tick)^[5] (env.onSem s.w) } := by
          simp only [bbswitch_on, hicdF]
          norm_num
        rw [h2]
    · rcases hor : (s.dis_dev || s.w.busVisible) with _ | _
      · rcases Bool.or_eq_false_iff.mp hor with ⟨hd, hb⟩
        have h1 : (bbswitch_on env s).1 = s := by
          simp [bbswitch_on, icd_mid s h hd hb]
        simp only [h1]
      · have h1 : (bbswitch_on env s).1 = { s with dis_dev := true } := by
          simp [bbswitch_on, icd_on s h hor]
        have hicd1 : is_card_disabled { s with dis_dev := true }
            = (0, { s with dis_dev := true },
               [Event.evalObj "\\_SB.PCI0.GPP0.PEGP" "SGST", Event.getDev]) :=
          icd_on _ h (by simp)
        have h2 : (bbswitch_on env { s with dis_dev := true }).1
            = { s with dis_dev := true } := by
          simp [bbswitch_on, hicd1]
        rw [h1, h2]

theorem transition_idempotence_witness :
    (((bbswitch_off envNominal (mkS wOn true)).bind
        fun r => bbswitch_off envNominal r.1).map (fun r => statusOf r.1))
      = (bbswitch_off envNominal (mkS wOn true)).map (fun r => statusOf r.1) ∧
    statusOf (bbswitch_on envNominal (bbswitch_on envNominal (mkS wOn true)).1).1
      = statusOf (bbswitch_on envNominal (mkS wOn true)).1 :=
  transition_idempotence envNominal (mkS wOn true)
    (fun _ => by simp [envNominal]) (fun _ => by simp [envNominal]) (fun _ => rfl)

theorem sgst_nonpos_of_status_eq_one (s : S) (h : statusOf s = 1) :
    s.w.sgst ≤ 0 := by
  by_contra hc
  push_neg at hc
  rcases hor : (s.dis_dev || s.w.busVisible) with _ | _
  · rcases Bool.or_eq_false_iff.mp hor with ⟨hd, hb⟩
    rw [statusOf_mid s hc hd hb] at h
    omega
  · rw [statusOf_on s hc hor] at h
    omega

theorem status_eq_zero_parts (s : S) (h : statusOf s = 0) :
    0 < s.w.sgst ∧ (s.dis_dev || s.w.busVisible) = true := by
  rcases le_or_lt s.w.sgst 0 with hle | hlt
  · rw [statusOf_off s hle] at h
    omega
  · refine ⟨hlt, ?_⟩
    rcases hor : (s.dis_dev || s.w.busVisible) with _ | _
    · rcases Bool.or_eq_false_iff.mp hor with ⟨hd, hb⟩
      rw [statusOf_mid s hlt hd hb] at h
      omega
    · rfl

theorem dis_dev_put_fst (env : Env) (s : S) :
    (dis_dev_put env s).1 = (is_card_disabled s).2.1 := by
  simp only [dis_dev_put]
  split_ifs <;> rfl

theorem icd_dis_before (s : S) :
    (is_card_disabled s).2.1.dis_before_suspend_disabled
      = s.dis_before_suspend_disabled := by
  simp only [is_card_disabled, get_dis_dev]
  split_ifs <;> rfl

theorem onLoop_dis_before (env : Env) (f : Nat) (s : S) :
    (onLoop env f s).1.dis_before_suspend_disabled
      = s.dis_before_suspend_disabled := by
  rcases onLoop_post env f s with ⟨_, heq⟩ | ⟨k, _, _, heq, _⟩ | ⟨heq, _, _⟩ <;>
    rw [heq]

theorem bbswitch_on_dis_before (env : Env) (s : S) :
    (bbswitch_on env s).1.dis_before_suspend_disabled
      = s.dis_before_suspend_disabled := by
  by_cases hlt : (is_card_disabled s).1 < 1
  · simp only [bbswitch_on, if_pos hlt]
    exact icd_dis_before s
  · simp only [bbswitch_on, bbswitch_acpi_on, if_neg hlt]
    rw [onLoop_dis_before]
    exact icd_dis_before s

theorem post_resume_status (env : Env) (s : S)
    (hb : s.dis_before_suspend_disabled ≠ 0)
    (hoffsem : ∀ w, (env.offSem w).sgst ≤ 0)
    (h1 : 0 < s.w.sgst) (h2 : s.w.busVisible = true) (h3 : s.w.driver = none) :
    ∃ r, bbswitch_pm_post_resume env s = some r ∧ statusOf r.1 = 1 := by
  have hor : (s.dis_dev || s.w.busVisible) = true := by simp [h2]
  have hicd := icd_on s h1 hor
  have hicd1 : is_card_disabled { s with dis_dev := true }
      = (0, { s with dis_dev := true },
         [Event.evalObj "\\_SB.PCI0.GPP0.PEGP" "SGST", Event.getDev]) :=
    icd_on _ h1 (by simp)
  have hg : (dis_dev_get env s).1 = { s with dis_dev := true } := by
    rcases hbr : env.hasBridge with _ | _ <;>
      simp [dis_dev_get, hicd, getLoop_of_found env 5 { s with dis_dev := true } rfl, hbr]
  have hoffres : bbswitch_off env { s with dis_dev := true }
      = some ({ s with w := env.offSem s.w, dis_dev := false },
         [Event.evalObj "\\_SB.PCI0.GPP0.PEGP" "SGST", Event.getDev]
           ++ [Event.evalObj "\\_SB.PCI0.GPP0.PG00" "_OFF"]) := by
    simp [bbswitch_off, hicd1, h3, bbswitch_acpi_off]
  have hs2 : (({ s with w := env.offSem s.w, dis_dev := false } : S)).w.sgst ≤ 0 :=
    hoffsem s.w
  have hput : dis_dev_put env { s with w := env.offSem s.w, dis_dev := false }
      = ({ s with w := env.offSem s.w, dis_dev := false },
         [Event.evalObj "\\_SB.PCI0.GPP0.PEGP" "SGST"]) := by
    simp [dis_dev_put, icd_off _ hs2]
  simp only [bbswitch_pm_post_resume, if_pos hb, hg, hoffres, hput]
  exact ⟨_, rfl, statusOf_off _ hs2⟩

/-- C4: for an initial adapter state whose observable status is on (0) or
off (1), handling a suspend-prepare event and then its matching post-resume
event — with no other command in between, nominal firmware off semantics,
and a post-resume world in which the system resume has left the card
powered, bus-visible and driverless — yields an observable status equal to
the status immediately before the suspend-prepare event. -/
theorem suspend_resume_symmetry (env : Env) (s : S) (w2 : World)
    (hstat : statusOf s = 0 ∨ statusOf s = 1)
    (hoffsem : ∀ w, (env.offSem w).sgst ≤ 0)
    (hw1 : 0 < w2.sgst) (hw2 : w2.busVisible = true) (hw3 : w2.driver = none) :
    ∃ r, bbswitch_pm_post_resume env
        { (bbswitch_pm_suspend_prepare env s).1 with w := w2 } = some r ∧
      statusOf r.1 = statusOf s := by
  rcases hstat with hst0 | hst1
  · rcases status_eq_zero_parts s hst0 with ⟨h, hor⟩
    have hicd := icd_on s h hor
    have hicd1 : is_card_disabled { s with dis_dev := true }
        = (0, { s with dis_dev := true },
           [Event.evalObj "\\_SB.PCI0.GPP0.PEGP" "SGST", Event.getDev]) :=
      icd_on _ h (by simp)
    have hg1 : (dis_dev_get env s).1 = { s with dis_dev := true } := by
      rcases hbr : env.hasBridge with _ | _ <;>
        simp [dis_dev_get, hicd, getLoop_of_found env 5 { s with dis_dev := true } rfl, hbr]
    have hicd3 : is_card_disabled
        { s with dis_dev := true, dis_before_suspend_disabled := 0 }
        = (0, { s with dis_dev := true, dis_before_suspend_disabled := 0 },
           [Event.evalObj "\\_SB.PCI0.GPP0.PEGP" "SGST", Event.getDev]) :=
      icd_on _ h (by simp)
    have hon3 : (bbswitch_on env
          { s with dis_dev := true, dis_before_suspend_disabled := 0 }).1
        = { s with dis_dev := true, dis_before_suspend_disabled := 0 } := by
      simp only [bbswitch_on, hicd3]
      norm_num
    have hput3 : (dis_dev_put env
          { s with dis_dev := true, dis_before_suspend_disabled := 0 }).1
        = { s with dis_dev := true, dis_before_suspend_disabled := 0 } := by
      rw [dis_dev_put_fst, hicd3]
    have hprep : (bbswitch_pm_suspend_prepare env s).1
        = { s with dis_dev := true, dis_before_suspend_disabled := 0 } := by
      simp only [bbswitch_pm_suspend_prepare, hg1, hicd1, hon3, hput3]
    rw [hprep]
    have hpost : bbswitch_pm_post_resume env
        { ({ s with dis_dev := true, dis_before_suspend_disabled := 0 } : S) with w := w2 }
        = some ({ ({ s with dis_dev := true, dis_before_suspend_disabled := 0 } : S) with w := w2 }, []) := by
      simp [bbswitch_pm_post_resume]
    refine ⟨_, hpost, ?_⟩
    rw [hst0]
    exact statusOf_on _ hw1 (by simp)
  · have h := sgst_nonpos_of_status_eq_one s hst1
    have hicd := icd_off s h
    have hg1 : dis_dev_get env s
        = (s, [Event.evalObj "\\_SB.PCI0.GPP0.PEGP" "SGST"]) := by
      simp [dis_dev_get, hicd]
    have hdb : (bbswitch_pm_suspend_prepare env s).1.dis_before_suspend_disabled
        = 1 := by
      simp only [bbswitch_pm_suspend_prepare, hg1, hicd]
      rw [dis_dev_put_fst, icd_dis_before, bbswitch_on_dis_before]
    rcases post_resume_status env
        { (bbswitch_pm_suspend_prepare env s).1 with w := w2 }
        (by show (bbswitch_pm_suspend_prepare env s).1.dis_before_suspend_disabled ≠ 0; omega)
        hoffsem hw1 hw2 hw3 with ⟨r, hr, hrst⟩
    refine ⟨r, hr, ?_⟩
    rw [hrst, hst1]

theorem suspend_resume_symmetry_witness :
    ∃ r, bbswitch_pm_post_resume envNominal
        { (bbswitch_pm_suspend_prepare envNominal (mkS wOff false)).1 with w := wOn }
        = some r ∧
      statusOf r.1 = statusOf (mkS wOff false) :=
  suspend_resume_symmetry envNominal (mkS wOff false) wOn (Or.inr (by decide))
    (fun _ => by simp [envNominal]) (by decide) rfl rfl

theorem get_dis_dev_setDsm (d : Nat) (b : Bool) (s : S) :
    get_dis_dev (setDsm d b s) = setDsm d b (get_dis_dev s) := by
  rcases hb : s.w.busVisible with _ | _ <;> simp [get_dis_dev, setDsm, hb]

theorem icd_setDsm (d : Nat) (b : Bool) (s : S) :
    is_card_disabled (setDsm d b s)
      = ((is_card_disabled s).1, setDsm d b (is_card_disabled s).2.1,
         (is_card_disabled s).2.2) := by
  rcases le_or_lt s.w.sgst 0 with h | h
  · rw [icd_off s h, icd_off (setDsm d b s) h]
  · rcases hor : (s.dis_dev || s.w.busVisible) with _ | _
    · rcases Bool.or_eq_false_iff.mp hor with ⟨hd, hb⟩
      rw [icd_mid s h hd hb, icd_mid (setDsm d b s) h hd hb]
    · rw [icd_on s h hor, icd_on (setDsm d b s) h hor]
      rfl

theorem onLoop_setDsm (env : Env) (f : Nat) (d : Nat) (b : Bool) : ∀ (s : S),
    onLoop env f (setDsm d b s)
      = (setDsm d b (onLoop env f s).1, (onLoop env f s).2) := by
  induction f with
  | zero => intro s; simp [onLoop]
  | succ f ih =>
    intro s
    rcases Bool.eq_false_or_eq_true s.dis_dev with hd | hd
    · rw [onLoop_of_found env (f + 1) (setDsm d b s) hd,
        onLoop_of_found env (f + 1) s hd]
    · have hstep : get_dis_dev { setDsm d b s with w := env.tick (setDsm d b s).w }
          = setDsm d b (get_dis_dev { s with w := env.tick s.w }) :=
        get_dis_dev_setDsm d b { s with w := env.tick s.w }
      by_cases hf : f = 0
      · subst hf
        simp only [onLoop, hd, Bool.false_eq_true, if_false, ite_false, hstep]
        simp [setDsm, hd]
      · simp only [onLoop, hd, Bool.false_eq_true, if_false, hf, ite_false, hstep, ih]
        simp [setDsm, hd]

theorem bbswitch_off_setDsm (env : Env) (d : Nat) (b : Bool) (s : S) :
    bbswitch_off env (setDsm d b s)
      = (bbswitch_off env s).map (fun r => (setDsm d b r.1, r.2)) := by
  simp only [bbswitch_off, icd_setDsm]
  by_cases h1 : (is_card_disabled s).1 = 1
  · simp [h1]
  · by_cases h2 : (is_card_disabled s).2.1.dis_dev = false
    · simp [h1, h2, setDsm]
    · by_cases h3 : (is_card_disabled s).2.1.w.driver.isSome
      · simp [h1, h2, h3, setDsm]
      · simp [h1, h2, h3, setDsm, bbswitch_acpi_off]

theorem bbswitch_on_setDsm (env : Env) (d : Nat) (b : Bool) (s : S) :
    bbswitch_on env (setDsm d b s)
      = (setDsm d b (bbswitch_on env s).1, (bbswitch_on env s).2) := by
  by_cases h1 : (is_card_disabled s).1 < 1
  · have hL : bbswitch_on env (setDsm d b s)
        = (setDsm d b (is_card_disabled s).2.1, (is_card_disabled s).2.2) := by
      simp only [bbswitch_on, icd_setDsm, if_pos h1]
    have hR : bbswitch_on env s
        = ((is_card_disabled s).2.1, (is_card_disabled s).2.2) := by
      simp only [bbswitch_on, if_pos h1]
    rw [hL, hR]
  · have honl := onLoop_setDsm env 5 d b
      { (is_card_disabled s).2.1 with w := env.onSem (is_card_disabled s).2.1.w }
    have hL : bbswitch_on env (setDsm d b s)
        = ((onLoop env 5 (setDsm d b
              { (is_card_disabled s).2.1 with w := env.onSem (is_card_disabled s).2.1.w })).1,
           (is_card_disabled s).2.2
             ++ [Event.evalObj "\\_SB.PCI0.GPP0.PG00" "_ON"]
             ++ (onLoop env 5 (setDsm d b
                  { (is_card_disabled s).2.1 with w := env.onSem (is_card_disabled s).2.1.w })).2) := by
      simp only [bbswitch_on, icd_setDsm, if_neg h1, bbswitch_acpi_on]
      rfl
    have hR : bbswitch_on env s
        = ((onLoop env 5
              { (is_card_disabled s).2.1 with w := env.onSem (is_card_disabled s).2.1.w }).1,
           (is_card_disabled s).2.2
             ++ [Event.evalObj "\\_SB.PCI0.GPP0.PG00" "_ON"]
             ++ (onLoop env 5
                  { (is_card_disabled s).2.1 with w := env.onSem (is_card_disabled s).2.1.w }).2) := by
      simp only [bbswitch_on, if_neg h1, bbswitch_acpi_on]
    rw [hL, hR, honl]

theorem icd_mem (s : S) (e : Event) (he : e ∈ (is_card_disabled s).2.2) :
    e = Event.evalObj "\\_SB.PCI0.GPP0.PEGP" "SGST" ∨ e = Event.getDev := by
  rcases le_or_lt s.w.sgst 0 with h | h
  · rw [icd_off s h] at he
    simp at he
    exact Or.inl he
  · rcases hor : (s.dis_dev || s.w.busVisible) with _ | _
    · rcases Bool.or_eq_false_iff.mp hor with ⟨hd, hb⟩
      rw [icd_mid s h hd hb] at he
      simpa using he
    · rw [icd_on s h hor] at he
      simpa using he

theorem onLoop_mem (env : Env) (f : Nat) : ∀ (s : S) (e : Event),
    e ∈ (onLoop env f s).2 → e = Event.sleep 500 ∨ e = Event.getDev := by
  induction f with
  | zero => intro s e he; simp [onLoop] at he
  | succ f ih =>
    intro s e he
    rcases Bool.eq_false_or_eq_true s.dis_dev with hd | hd
    · rw [onLoop_of_found env (f + 1) s hd] at he
      simp at he
    · by_cases hf : f = 0
      · subst hf
        simp only [onLoop, hd, Bool.false_eq_true, if_false, ite_false] at he
        simpa using he
      · simp only [onLoop, hd, Bool.false_eq_true, if_false, hf, ite_false,
          List.mem_cons] at he
        rcases he with rfl | rfl | he
        · exact Or.inl rfl
        · exact Or.inr rfl
        · exact ih _ e he

/-- C10: the off- and on-transitions are independent of the firmware
interface resolved at start-up: changing only `dsm_type` and
`skip_optimus_dsm` in the state changes nothing observable (the transitions
commute with `setDsm`, with identical event traces), and the only firmware
objects either transition ever evaluates are `SGST` on
`\_SB.PCI0.GPP0.PEGP` and `_OFF` / `_ON` on the fixed path
`\_SB.PCI0.GPP0.PG00` — in particular no `_DSM` call (`bbswitch_optimus_dsm`)
ever appears in a transition's trace. -/
theorem config_independence (env : Env) (s : S) (d : Nat) (b : Bool) :
    bbswitch_off env (setDsm d b s)
      = (bbswitch_off env s).map (fun r => (setDsm d b r.1, r.2)) ∧
    bbswitch_on env (setDsm d b s)
      = (setDsm d b (bbswitch_on env s).1, (bbswitch_on env s).2) ∧
    (∀ e ∈ (bbswitch_on env s).2,
      e = Event.evalObj "\\_SB.PCI0.GPP0.PEGP" "SGST" ∨
      e = Event.evalObj "\\_SB.PCI0.GPP0.PG00" "_ON" ∨
      e = Event.sleep 500 ∨ e = Event.getDev) ∧
    (∀ r, bbswitch_off env s = some r → ∀ e ∈ r.2,
      e = Event.evalObj "\\_SB.PCI0.GPP0.PEGP" "SGST" ∨
      e = Event.evalObj "\\_SB.PCI0.GPP0.PG00" "_OFF" ∨
      e = Event.getDev) := by
  refine ⟨bbswitch_off_setDsm env d b s, bbswitch_on_setDsm env d b s, ?_, ?_⟩
  · intro e he
    by_cases h1 : (is_card_disabled s).1 < 1
    · simp only [bbswitch_on, if_pos h1] at he
      rcases icd_mem s e he with h | h
      · exact Or.inl h
      · exact Or.inr (Or.inr (Or.inr h))
    · simp only [bbswitch_on, if_neg h1, bbswitch_acpi_on, List.append_assoc,
        List.mem_append] at he
      rcases he with he | he | he
      · rcases icd_mem s e he with h | h
        · exact Or.inl h
        · exact Or.inr (Or.inr (Or.inr h))
      · simp at he
        exact Or.inr (Or.inl he)
      · rcases onLoop_mem env 5 _ e he with h | h
        · exact Or.inr (Or.inr (Or.inl h))
        · exact Or.inr (Or.inr (Or.inr h))
  · intro r hr e he
    by_cases h1 : (is_card_disabled s).1 = 1
    · simp only [bbswitch_off, if_pos h1, Option.some_inj] at hr
      rw [← hr] at he
      rcases icd_mem s e he with h | h
      · exact Or.inl h
      · exact Or.inr (Or.inr h)
    · by_cases h2 : (is_card_disabled s).2.1.dis_dev = false
      · simp only [bbswitch_off, if_neg h1, if_pos h2] at hr
        exact absurd hr (by simp)
      · by_cases h3 : (is_card_disabled s).2.1.w.driver.isSome
        · simp only [bbswitch_off, if_neg h1, if_neg h2, if_pos h3,
            Option.some_inj] at hr
          rw [← hr] at he
          rcases icd_mem s e he with h | h
          · exact Or.inl h
          · exact Or.inr (Or.inr h)
        · simp only [bbswitch_off, if_neg h1, if_neg h2, if_neg h3,
            Option.some_inj] at hr
          rw [← hr] at he
          simp only [bbswitch_acpi_off, List.mem_append] at he
          rcases he with he | he
          · rcases icd_mem s e he with h | h
            · exact Or.inl h
            · exact Or.inr (Or.inr h)
          · simp at he
            exact Or.inr (Or.inl he)

theorem config_independence_witness :
    bbswitch_off envNominal (setDsm DSM_TYPE_NVIDIA true (mkS wOn true))
      = (bbswitch_off envNominal (mkS wOn true)).map
          (fun r => (setDsm DSM_TYPE_NVIDIA true r.1, r.2)) ∧
    bbswitch_on envNominal (setDsm DSM_TYPE_NVIDIA true (mkS wOff false))
      = (setDsm DSM_TYPE_NVIDIA true (bbswitch_on envNominal (mkS wOff false)).1,
         (bbswitch_on envNominal (mkS wOff false)).2) :=
  ⟨(config_independence envNominal (mkS wOn true) DSM_TYPE_NVIDIA true).1,
   (config_independence envNominal (mkS wOff false) DSM_TYPE_NVIDIA true).2.1⟩

/-- C3 (code bug witness): from the indeterminate state — firmware reports
on, the device is not bus-visible, `dis_dev` is NULL — a write of the `OFF`
command reaches `bbswitch_off`, whose `is_card_disabled() == 1` guard does
not fire (the status is -1), and the code then reads `dis_dev->driver`
through the NULL pointer; `none` is the embedding's image of that crash. -/
theorem off_null_deref :
    bbswitch_proc_write_OFF envStall (mkS wMid false) = none := by decide

/-- C2 (counterexample): a wrapped `ON` command issued while the card is
off performs a runtime-PM release (`pm_runtime_put_sync` in `dis_dev_put`)
with no matching prior acquire: the trace holds one `pmPut` and no `pmGet`,
so acquire/release are not strictly paired per wrapped operation. -/
theorem on_write_release_without_acquire :
    ((bbswitch_proc_write_ON envNominal (mkS wOff false)).2.count Event.pmPut = 1) ∧
    ((bbswitch_proc_write_ON envNominal (mkS wOff false)).2.count Event.pmGet = 0) := by
  decide

end BBSwitch

